import Mathlib

/-
  Verification of the EKO-FITNESS club-management front end (eko-react)
  against its natural-language specification: the member-facing rating
  rules table, the matchday lifecycle rendering on the admin page, the
  dashboard featured-matchday query, the client-side stats cache, and the
  vote / signup / attendance / star-display logic.
-/

namespace Eko

/-- Matchday lifecycle status, as used by the status strings throughout the
source (voting_open, closed_pending_review, approved, rejected) and by the
state machine of spec section 4.3. -/
inductive MDStatus where
  | voting_open
  | closed_pending_review
  | approved
  | rejected
deriving DecidableEq, Repr

/-- The scoring term a rating rule awards points for (spec section 4.5). -/
inductive RatingTerm where
  | presentBase
  | goalScored
  | assist
  | hatTrick
  | rankBonus (rank : Nat)
  | cleanSheetFixture
  | yellowCard
  | redCard
deriving DecidableEq, Repr

/-- One row of the rating-rules table: the points awarded and the scoring
term the row's rule text describes. -/
structure RatingRule where
  points : Int
  term : RatingTerm
deriving DecidableEq, Repr

/-- `RATING_RULES` from src/eko-react/src/pages/Rules.jsx lines 3-15, in
source order.  The points strings of the source are read as integers
(so the row text '+5' becomes 5 and the unicode-minus row '−10' becomes
-10) and each row's rule text is classified by the scoring term it
describes:
  +5  "All members that are present (marked present on the day)"
  +2  "Any member that scores a goal"
  +1  "Any member that assists a goal"
  +5  "All members in the group that comes 1st at the end of matchday"
  +3  "All members in the group that comes 2nd at the end of matchday"
  +2  "All members in the group that comes 3rd at the end of matchday"
  +1  "All members in the group that comes 4th at the end of matchday"
  +1  "Per fixture: all members in a group that keeps a clean sheet in
       that fixture (no goals conceded in that game)"
  +5  "Any member that scores a hat-trick (3 or more goals in one matchday)"
  −5  "Per yellow card (each yellow card)"
  −10 "Per red card (each red card)" -/
def RATING_RULES : List RatingRule :=
  [⟨5, .presentBase⟩,
   ⟨2, .goalScored⟩,
   ⟨1, .assist⟩,
   ⟨5, .rankBonus 1⟩,
   ⟨3, .rankBonus 2⟩,
   ⟨2, .rankBonus 3⟩,
   ⟨1, .rankBonus 4⟩,
   ⟨1, .cleanSheetFixture⟩,
   ⟨5, .hatTrick⟩,
   ⟨-5, .yellowCard⟩,
   ⟨-10, .redCard⟩]

/-- The point terms of the spec's scoring algorithm (spec section 4.5), in
the order the claim lists them: +5 for every member marked present, +2 per
goal, +1 per assist, +5 for a hat-trick, rank bonuses +5/+3/+2/+1 for the
groups finishing 1st/2nd/3rd/4th (and no bonus for 5th or lower, so no
rank entry beyond rank 4 appears), +1 per clean-sheet fixture, -5 per
yellow card, -10 per red card. -/
def specScoringTerms : List RatingRule :=
  [⟨5, .presentBase⟩,
   ⟨2, .goalScored⟩,
   ⟨1, .assist⟩,
   ⟨5, .hatTrick⟩,
   ⟨5, .rankBonus 1⟩,
   ⟨3, .rankBonus 2⟩,
   ⟨2, .rankBonus 3⟩,
   ⟨1, .rankBonus 4⟩,
   ⟨1, .cleanSheetFixture⟩,
   ⟨-5, .yellowCard⟩,
   ⟨-10, .redCard⟩]

/-- C1: the member-facing `RATING_RULES` table lists exactly the point
values of the spec's scoring algorithm — an entry for each of the spec's
terms (+5 present, +2 per goal, +1 per assist, +5 hat-trick, +5/+3/+2/+1
for group ranks 1 to 4 with no bonus for rank 5 or lower, +1 per
clean-sheet fixture, -5 per yellow card, -10 per red card) and no
others: the two lists agree as multisets. -/
theorem rating_rules_match_spec_terms : RATING_RULES.Perm specScoringTerms := by
  decide

/-- The fields of a member matchday list item that the Dashboard
featured-matchday query reads (Dashboard.jsx lines 77-91). -/
structure MatchdaySummary where
  id : Nat
  status : MDStatus
  matchday_ended : Bool
deriving DecidableEq, Repr

/-- The predicate of Dashboard.jsx line 83:
`!md.matchday_ended && md.status !== 'rejected' &&
 (md.status === 'voting_open' || md.status === 'approved')`. -/
def featuredPred (md : MatchdaySummary) : Bool :=
  !md.matchday_ended && !(md.status == .rejected) &&
    (md.status == .voting_open || md.status == .approved)

/-- Dashboard.jsx line 83: the featured matchday is computed with
`matchdays.find(...)` over the fetched list; when `find` misses, the
effect stores `null` and no featured matchday is shown. -/
def featuredMatchday (mds : List MatchdaySummary) : Option MatchdaySummary :=
  mds.find? featuredPred

theorem featuredPred_iff (md : MatchdaySummary) :
    featuredPred md = true ↔
      md.matchday_ended = false ∧ md.status ≠ .rejected ∧
        (md.status = .voting_open ∨ md.status = .approved) := by
  rcases md with ⟨i, st, ended⟩
  cases st <;> cases ended <;> simp [featuredPred]

/-- C4: the featured matchday is a query over the fetched list: when it
returns a matchday, that matchday is not ended, not rejected, and in
voting_open or approved status, and it is the first list element
satisfying the predicate; when no element satisfies the predicate, the
query returns none. -/
theorem featured_matchday_is_first_active (mds : List MatchdaySummary) :
    (∀ md, featuredMatchday mds = some md →
      (md.matchday_ended = false ∧ md.status ≠ .rejected ∧
        (md.status = .voting_open ∨ md.status = .approved)) ∧
      ∃ pre post, mds = pre ++ md :: post ∧
        ∀ y ∈ pre, featuredPred y = false) ∧
    ((∀ md ∈ mds, featuredPred md = false) → featuredMatchday mds = none) := by
  constructor
  · intro md hfind
    induction mds with
    | nil => simp [featuredMatchday] at hfind
    | cons x xs ih =>
      rw [featuredMatchday, List.find?_cons] at hfind
      cases hp : featuredPred x with
      | true =>
        rw [hp] at hfind
        simp only [Option.some.injEq] at hfind
        subst hfind
        refine ⟨(featuredPred_iff x).mp hp, [], xs, rfl, ?_⟩
        intro y hy
        simp at hy
      | false =>
        rw [hp] at hfind
        obtain ⟨hprop, pre, post, heq, hpre⟩ := ih hfind
        refine ⟨hprop, x :: pre, post, by simp [heq], ?_⟩
        intro y hy
        rcases List.mem_cons.mp hy with rfl | hy2
        · exact hp
        · exact hpre y hy2
  · intro hall
    exact List.find?_eq_none.mpr fun md hmd => by
      rw [hall md hmd]
      exact Bool.false_ne_true

/-- Witness for C4 at a concrete list: an ended matchday and a rejected
matchday are skipped and the first voting_open matchday is featured. -/
theorem featured_matchday_witness :
    ∃ pre post,
      [MatchdaySummary.mk 1 .approved true,
       MatchdaySummary.mk 2 .rejected false,
       MatchdaySummary.mk 3 .voting_open false] =
        pre ++ MatchdaySummary.mk 3 .voting_open false :: post ∧
      ∀ y ∈ pre, featuredPred y = false := by
  have h :=
    (featured_matchday_is_first_active
      [MatchdaySummary.mk 1 .approved true,
       MatchdaySummary.mk 2 .rejected false,
       MatchdaySummary.mk 3 .voting_open false]).1
      (MatchdaySummary.mk 3 .voting_open false) (by decide)
  exact h.2

/-- The matchday fields the admin matchday page (src/unnamed/part_003)
reads when deciding which lifecycle and groups controls to render. -/
structure MatchdayView where
  status : MDStatus
  groups_published : Bool
  fixtures_published : Bool
  matchday_ended : Bool
deriving DecidableEq, Repr

/-- part_003 line 1078: the close-voting button block is guarded by
`matchdayData.matchday?.status === 'voting_open'`. -/
def closeVotingButtonRendered (md : MatchdayView) : Bool :=
  md.status == .voting_open

/-- part_003 lines 1083-1086: the approve button block is guarded by
`matchdayData.matchday?.status === 'closed_pending_review'`. -/
def approveButtonRendered (md : MatchdayView) : Bool :=
  md.status == .closed_pending_review

/-- part_003 lines 1083-1086: the reject button lives in the same
closed_pending_review block as the approve button. -/
def rejectButtonRendered (md : MatchdayView) : Bool :=
  md.status == .closed_pending_review

/-- part_003 lines 1083-1086: the reopen-voting button lives in the same
closed_pending_review block as the approve button. -/
def reopenVotingButtonRendered (md : MatchdayView) : Bool :=
  md.status == .closed_pending_review

/-- part_003 line 1231: the fixtures section is guarded by
`status === 'approved' && groups_published`. -/
def fixturesSectionRendered (md : MatchdayView) : Bool :=
  md.status == .approved && md.groups_published

/-- part_003 line 1296: inside the fixtures section, in the branch where
fixtures exist, the end-matchday button is guarded by
`!matchdayData.matchday?.matchday_ended`. -/
def endMatchdayButtonRendered (md : MatchdayView) (fixtureCount : Nat) : Bool :=
  fixturesSectionRendered md && fixtureCount != 0 && !md.matchday_ended

/-- part_003 line 1297: inside the fixtures section, in the branch where
fixtures exist, the reopen-matchday button is guarded by
`matchdayData.matchday?.matchday_ended`. -/
def reopenMatchdayButtonRendered (md : MatchdayView) (fixtureCount : Nat) : Bool :=
  fixturesSectionRendered md && fixtureCount != 0 && md.matchday_ended

/-- C3: each lifecycle transition action the admin matchday page can
render is rendered only from the status the spec's state-machine table
allows its event from: close-voting only while voting_open; approve,
reject and reopen-voting only while closed_pending_review;
reopen-matchday only once the matchday has ended; and end-matchday never
for an already-ended matchday. -/
theorem admin_lifecycle_buttons_respect_state_machine
    (md : MatchdayView) (fixtureCount : Nat) :
    (closeVotingButtonRendered md = true → md.status = .voting_open) ∧
    (approveButtonRendered md = true → md.status = .closed_pending_review) ∧
    (rejectButtonRendered md = true → md.status = .closed_pending_review) ∧
    (reopenVotingButtonRendered md = true → md.status = .closed_pending_review) ∧
    (reopenMatchdayButtonRendered md fixtureCount = true →
      md.matchday_ended = true) ∧
    (endMatchdayButtonRendered md fixtureCount = true →
      md.matchday_ended = false) := by
  refine ⟨?_, ?_, ?_, ?_, ?_, ?_⟩ <;>
    intro h <;>
    simp [closeVotingButtonRendered, approveButtonRendered,
      rejectButtonRendered, reopenVotingButtonRendered,
      reopenMatchdayButtonRendered, endMatchdayButtonRendered,
      fixturesSectionRendered] at h <;>
    tauto

/-- Witness for C3: at an ended matchday with published groups and one
fixture the reopen button appears and implies the ended flag; at a fresh
voting_open matchday the close-voting button appears and implies
voting_open status. -/
theorem admin_lifecycle_buttons_witness :
    reopenMatchdayButtonRendered (MatchdayView.mk .approved true true true) 3 = true ∧
    (MatchdayView.mk .approved true true true).matchday_ended = true ∧
    closeVotingButtonRendered (MatchdayView.mk .voting_open false false false) = true ∧
    (MatchdayView.mk .voting_open false false false).status = .voting_open := by
  refine ⟨by decide, ?_, by decide, ?_⟩
  · exact (admin_lifecycle_buttons_respect_state_machine
      (MatchdayView.mk .approved true true true) 3).2.2.2.2.1 (by decide)
  · exact (admin_lifecycle_buttons_respect_state_machine
      (MatchdayView.mk .voting_open false false false) 0).1 (by decide)

/-- part_003 line 1115: the admin groups section is guarded by
`status === 'approved' && matchdayGroups?.groups?.length > 0`. -/
def groupsSectionRendered (md : MatchdayView) (groupCount : Nat) : Bool :=
  md.status == .approved && groupCount != 0

/-- part_003 line 1125: in the published-groups branch
(`groups_published` true) the regenerate button is rendered
unconditionally next to the unpublish button. -/
def regenerateRenderedPublishedBranch (md : MatchdayView) (groupCount : Nat) : Bool :=
  groupsSectionRendered md groupCount && md.groups_published

/-- part_003 line 1166: in the unpublished (editable) branch the
regenerate button is rendered unconditionally next to the publish
button. -/
def regenerateRenderedUnpublishedBranch (md : MatchdayView) (groupCount : Nat) : Bool :=
  groupsSectionRendered md groupCount && !md.groups_published

/-- The regenerate action is offered whenever either branch of the groups
section renders its regenerate button. -/
def regenerateButtonRendered (md : MatchdayView) (groupCount : Nat) : Bool :=
  regenerateRenderedPublishedBranch md groupCount ||
    regenerateRenderedUnpublishedBranch md groupCount

/-- Modelled from the spec: the backend permission rule for group
regeneration ("only permitted before fixtures are generated or after
groups are unpublished", spec section 4.2) — the regeneration endpoint
itself is not part of the repository sources. -/
def regeneratePermitted (groups_published fixturesGenerated : Bool) : Bool :=
  !fixturesGenerated || !groups_published

/-- Counterexample to C5 as stated: with an approved matchday whose
groups are published and whose fixtures are already generated, the
groups section renders the regenerate button even though the spec's
permission rule forbids regeneration in that state. -/
theorem regenerate_offered_in_forbidden_state :
    regenerateButtonRendered (MatchdayView.mk .approved true true false) 2 = true ∧
    regeneratePermitted true true = false := by
  decide

/-- C5 (amended): the regenerate action is offered whenever the admin
groups section is rendered at all — in the published branch and in the
unpublished branch alike — with no dependence on whether fixtures have
been generated. -/
theorem regenerate_offered_whenever_groups_section
    (md : MatchdayView) (groupCount : Nat)
    (h : groupsSectionRendered md groupCount = true) :
    regenerateButtonRendered md groupCount = true := by
  unfold regenerateButtonRendered regenerateRenderedPublishedBranch
    regenerateRenderedUnpublishedBranch
  cases hp : md.groups_published <;> simp [h, hp]

/-- Witness for C5 (amended) at a concrete state: approved matchday,
published groups, fixtures already generated, two groups. -/
theorem regenerate_offered_witness :
    groupsSectionRendered (MatchdayView.mk .approved true true false) 2 = true ∧
    regenerateButtonRendered (MatchdayView.mk .approved true true false) 2 = true := by
  refine ⟨by decide, ?_⟩
  exact regenerate_offered_whenever_groups_section
    (MatchdayView.mk .approved true true false) 2 (by decide)

/-- Vote-ledger errors from the spec's taxonomy (spec section 7). -/
inductive VoteError where
  | IneligibleVoter
  | VotingClosed
deriving DecidableEq, Repr

/-- Modelled from the spec: the backend vote ledger's `castVote`
(spec section 4.1) is not part of the repository sources (the front end
only posts to `matchdays/{id}/vote`).  It succeeds only while the
matchday is voting_open and the player is eligible, and an idempotent
re-vote by the same player is a no-op, not an error.  Votes are the
(matchday_id, player_id) pairs recorded so far. -/
def castVote (votes : List (Nat × Nat)) (status : MDStatus) (eligible : Bool)
    (mdId pid : Nat) : Except VoteError (List (Nat × Nat)) :=
  if !(status == .voting_open) then .error .VotingClosed
  else if !eligible then .error .IneligibleVoter
  else if votes.contains (mdId, pid) then .ok votes
  else .ok ((mdId, pid) :: votes)

/-- The number of votes recorded for one matchday. -/
def voteCount (votes : List (Nat × Nat)) (mdId : Nat) : Nat :=
  (votes.filter (fun v => v.1 == mdId)).length

/-- Dashboard.jsx line 321: the vote button's disabled flag is
`featuredMatchday?.voted || !featuredMatchday?.can_vote || voting`. -/
def dashboardVoteDisabled (voted can_vote voting : Bool) : Bool :=
  voted || !can_vote || voting

/-- What the member matchday page (src/unnamed/part_002, vote section)
renders while voting is open: the "You have voted." message, the vote
button, or the paid-or-waiver notice. -/
inductive VoteSectionView where
  | votedMessage
  | voteButton
  | payNotice
deriving DecidableEq, Repr

/-- part_002 vote section: `detail.voted` first, then `detail.can_vote`. -/
def matchdayVoteSection (voted can_vote : Bool) : VoteSectionView :=
  if voted then .votedMessage
  else if can_vote then .voteButton
  else .payNotice

/-- C6: a second `castVote` by the same player for the same matchday is a
no-op and not an error — it returns the unchanged vote list, so the vote
count is unchanged — and once `voted` is set the member pages issue no
second request: the dashboard vote button is disabled and the matchday
page renders the "You have voted." message instead of the button. -/
theorem revote_is_noop (votes votes2 : List (Nat × Nat)) (status : MDStatus)
    (eligible : Bool) (mdId pid : Nat)
    (h : castVote votes status eligible mdId pid = .ok votes2) :
    castVote votes2 status eligible mdId pid = .ok votes2 ∧
    (∀ votes3, castVote votes2 status eligible mdId pid = .ok votes3 →
      voteCount votes3 mdId = voteCount votes2 mdId) ∧
    (∀ can_vote voting, dashboardVoteDisabled true can_vote voting = true) ∧
    (∀ can_vote, matchdayVoteSection true can_vote = .votedMessage) := by
  have hmain : castVote votes2 status eligible mdId pid = .ok votes2 := by
    unfold castVote at h ⊢
    split at h
    next hs => exact Except.noConfusion h
    next hs =>
      split at h
      next he => exact Except.noConfusion h
      next he =>
        rw [if_neg hs, if_neg he]
        split at h
        next hc =>
          obtain rfl : votes = votes2 := by injection h
          rw [if_pos hc]
        next hc =>
          obtain rfl : (mdId, pid) :: votes = votes2 := by injection h
          have hmem : ((mdId, pid) :: votes).contains (mdId, pid) = true := by
            simp [List.contains_cons]
          rw [if_pos hmem]
  refine ⟨hmain, ?_, ?_, ?_⟩
  · intro votes3 h3
    rw [hmain] at h3
    obtain rfl : votes2 = votes3 := by injection h3
    rfl
  · intro can_vote voting
    simp [dashboardVoteDisabled]
  · intro can_vote
    rfl

/-- Witness for C6 at a concrete ledger: player 2 votes for matchday 1 on
an empty ledger while voting is open; the repeat call returns the same
ledger and the rendered controls block a second request. -/
theorem revote_is_noop_witness :
    castVote [(1, 2)] .voting_open true 1 2 = .ok [(1, 2)] ∧
    dashboardVoteDisabled true true false = true ∧
    matchdayVoteSection true true = .votedMessage := by
  have h := revote_is_noop [] [(1, 2)] .voting_open true 1 2 (by rfl)
  exact ⟨h.1, h.2.2.1 true false, h.2.2.2 true⟩

/-- One entry of the client-side stats cache of api.js: the cached server
response and its expiry instant (store time + TTL), in milliseconds. -/
structure CacheEntry (α : Type) where
  value : α
  exp : Nat
deriving DecidableEq, Repr

/-- The client-side cache of api.js line 34 (`_cache = new Map()`),
modelled as an association list with at most one entry per key.  Keys are
the strings `stats:<token>` etc.; they are kept abstract here. -/
def Cache (κ α : Type) : Type := List (κ × CacheEntry α)

/-- api.js line 35: `_CACHE_TTL = 30_000` milliseconds. -/
def CACHE_TTL : Nat := 30000

/-- `_cache.get(key)` of the JS Map. -/
def lookupEntry {κ α : Type} [DecidableEq κ] (c : Cache κ α) (key : κ) :
    Option (CacheEntry α) :=
  (List.find? (fun e => e.1 == key) c).map (fun e => e.2)

/-- `_cache.delete(key)` of the JS Map. -/
def eraseKey {κ α : Type} [DecidableEq κ] (c : Cache κ α) (key : κ) : Cache κ α :=
  List.filter (fun e => !(e.1 == key)) c

/-- api.js lines 37-42 `cacheGet`: return the entry's value while
`Date.now() < entry.exp`; otherwise delete the key and return null.
The returned pair is (result, cache state after the call). -/
def cacheGet {κ α : Type} [DecidableEq κ] (c : Cache κ α) (key : κ) (now : Nat) :
    Option α × Cache κ α :=
  match lookupEntry c key with
  | some e => if now < e.exp then (some e.value, c) else (none, eraseKey c key)
  | none => (none, eraseKey c key)

/-- api.js lines 44-46 `cacheSet`: store the value with expiry
`Date.now() + _CACHE_TTL` (Map.set keeps one entry per key). -/
def cacheSet {κ α : Type} [DecidableEq κ] (c : Cache κ α) (key : κ) (v : α)
    (now : Nat) : Cache κ α :=
  (key, CacheEntry.mk v (now + CACHE_TTL)) :: eraseKey c key

/-- api.js lines 48-50 `invalidateStatsCache`: `_cache.clear()`. -/
def invalidateStatsCache {κ α : Type} (_c : Cache κ α) : Cache κ α := []

/-- api.js lines 384-388 `endMatchday`: `invalidateStatsCache()` runs
before the POST is issued, so this is the cache state at the moment the
end-matchday request goes out. -/
def endMatchdayCacheAtRequest {κ α : Type} (c : Cache κ α) : Cache κ α :=
  invalidateStatsCache c

/-- api.js lines 390-394 `reopenMatchday`: likewise clears the cache
before issuing the reopen-matchday request. -/
def reopenMatchdayCacheAtRequest {κ α : Type} (c : Cache κ α) : Cache κ α :=
  invalidateStatsCache c

/-- api.js `getMemberStats` / `getMemberLeaderboard`: return the cached
value on a cache hit, otherwise fetch `fresh` from the server and cache
it.  The result is (value observed by the caller, cache afterwards). -/
def cachedFetch {κ α : Type} [DecidableEq κ] (c : Cache κ α) (key : κ)
    (now : Nat) (fresh : α) : α × Cache κ α :=
  match cacheGet c key now with
  | (some v, c2) => (v, c2)
  | (none, c2) => (fresh, cacheSet c2 key fresh now)

theorem lookupEntry_eraseKey {κ α : Type} [DecidableEq κ] (c : Cache κ α)
    (key : κ) : lookupEntry (eraseKey c key) key = none := by
  unfold lookupEntry eraseKey
  rw [Option.map_eq_none']
  rw [List.find?_eq_none]
  intro e he
  rcases List.mem_filter.mp he with ⟨_, hkeep⟩
  simp only [Bool.not_eq_true'] at hkeep
  simp [hkeep]

/-- C7: the stats cache has a 30-second TTL with deletion on expired
lookup, and end-matchday / reopen-matchday clear it before their request:
a `cacheGet` at least `CACHE_TTL` after the value was stored returns
none and removes the entry, and any stats or leaderboard read issued
after one of the two transitions sees the fresh server value, never a
cached pre-transition one. -/
theorem stats_cache_ttl_and_invalidation {κ α : Type} [DecidableEq κ]
    (c : Cache κ α) (key : κ) (v : α) (t now : Nat)
    (h : t + CACHE_TTL ≤ now) :
    (cacheGet (cacheSet c key v t) key now).1 = none ∧
    lookupEntry (cacheGet (cacheSet c key v t) key now).2 key = none ∧
    (∀ key2 now2 fresh, (cachedFetch (endMatchdayCacheAtRequest c) key2 now2 fresh).1 = fresh) ∧
    (∀ key2 now2 fresh, (cachedFetch (reopenMatchdayCacheAtRequest c) key2 now2 fresh).1 = fresh) := by
  have hwrite : lookupEntry (cacheSet c key v t) key =
      some (CacheEntry.mk v (t + CACHE_TTL)) := by
    unfold lookupEntry cacheSet
    simp [List.find?_cons]
  have hexp : ¬now < t + CACHE_TTL := Nat.not_lt.mpr h
  have hget : cacheGet (cacheSet c key v t) key now =
      (none, eraseKey (cacheSet c key v t) key) := by
    unfold cacheGet
    rw [hwrite]
    simp [hexp]
  have hempty : ∀ (key2 : κ) (now2 : Nat) (fresh : α),
      (cachedFetch ([] : Cache κ α) key2 now2 fresh).1 = fresh := by
    intro key2 now2 fresh
    unfold cachedFetch cacheGet lookupEntry eraseKey
    simp
  refine ⟨?_, ?_, ?_, ?_⟩
  · rw [hget]
  · rw [hget]
    exact lookupEntry_eraseKey _ _
  · intro key2 now2 fresh
    exact hempty key2 now2 fresh
  · intro key2 now2 fresh
    exact hempty key2 now2 fresh

/-- Witness for C7 at concrete data: a value stored at t = 0 is gone when
read exactly one TTL later, and a read after end-matchday returns the
fresh server value 9. -/
theorem stats_cache_witness :
    (cacheGet (cacheSet ([] : Cache Nat Nat) 5 7 0) 5 30000).1 = none ∧
    (cachedFetch (endMatchdayCacheAtRequest ([] : Cache Nat Nat)) 5 1 9).1 = 9 := by
  have h := stats_cache_ttl_and_invalidation ([] : Cache Nat Nat) 5 7 0 30000
    (by decide)
  exact ⟨h.1, h.2.2.1 5 1 9⟩

/-- The whitespace characters JS `parseInt` skips before the number
(the common ones suffice for the inputs modelled here). -/
def jsSpace (ch : Char) : Bool :=
  ch == ' ' || ch == '\t' || ch == '\n' || ch == '\r'

/-- The numeric value of a digit run. -/
def digitsVal (ds : List Char) : Nat :=
  ds.foldl (fun a c => a * 10 + (c.toNat - 48)) 0

/-- The magnitude part of JS `parseInt(s, 10)`: the longest leading digit
run (trailing garbage ignored), NaN — modelled as none — when there is
no leading digit. -/
def parseMagnitude (cs : List Char) (neg : Bool) : Option Int :=
  match cs.takeWhile Char.isDigit with
  | [] => none
  | ds => some (if neg then -(digitsVal ds : Int) else (digitsVal ds : Int))

/-- JS `parseInt(s, 10)` as used by Signup.jsx line 29: skip leading
whitespace, optional sign, then the leading digit run; none models NaN. -/
def parseIntJS (s : String) : Option Int :=
  match s.data.dropWhile jsSpace with
  | '-' :: rest => parseMagnitude rest true
  | '+' :: rest => parseMagnitude rest false
  | rest => parseMagnitude rest false

/-- The signup form fields (Signup.jsx state, all held as strings). -/
structure SignupForm where
  first_name : String
  surname : String
  baller_name : String
  jersey_number : String
  email : String
  whatsapp_phone : String
deriving DecidableEq, Repr

/-- The four validation messages of Signup.jsx `handleSubmit`, in source
order:
  namesRequired    "First name, surname and baller name are required."
  jerseyRange      "Jersey number must be between 1 and 100."
  emailRequired    "Email is required."
  whatsappRequired "WhatsApp number is required." -/
inductive SignupError where
  | namesRequired
  | jerseyRange
  | emailRequired
  | whatsappRequired
deriving DecidableEq, Repr

/-- The trimmed payload `handleSubmit` passes to the `signup` request. -/
structure SignupPayload where
  first_name : String
  surname : String
  baller_name : String
  jersey_number : Int
  email : String
  whatsapp_phone : String
deriving DecidableEq, Repr

/-- The observable outcome of one submit: either a validation message is
shown and the handler returns before any request (no external mutation),
or the signup request is issued with the trimmed payload. -/
inductive SubmitOutcome where
  | showValidationMessage (e : SignupError)
  | requestIssued (p : SignupPayload)
deriving DecidableEq, Repr

/-- JS `String.prototype.trim`: strip leading and trailing whitespace. -/
def trimJS (s : String) : String :=
  String.mk (((s.data.dropWhile Char.isWhitespace).reverse.dropWhile
    Char.isWhitespace).reverse)

/-- JS falsiness of `s?.trim()`: the field is blank after trimming. -/
def blank (s : String) : Bool := trimJS s == String.mk []

/-- The jersey-number field fails Signup.jsx line 34's test
`!Number.isInteger(num) || num < 1 || num > 100`: it does not parse to
an integer between 1 and 100. -/
def jerseyInvalid (s : String) : Bool :=
  match parseIntJS s with
  | none => true
  | some n => decide (n < 1 ∨ 100 < n)

/-- Signup.jsx lines 26-63 `handleSubmit`: names check first, then the
jersey-number parse/range check, then email, then WhatsApp; only when
all pass is the request issued with the trimmed fields and the parsed
jersey number. -/
def handleSubmit (form : SignupForm) : SubmitOutcome :=
  if blank form.first_name || blank form.surname || blank form.baller_name then
    .showValidationMessage .namesRequired
  else if jerseyInvalid form.jersey_number then
    .showValidationMessage .jerseyRange
  else if blank form.email then .showValidationMessage .emailRequired
  else if blank form.whatsapp_phone then .showValidationMessage .whatsappRequired
  else .requestIssued (SignupPayload.mk (trimJS form.first_name)
    (trimJS form.surname) (trimJS form.baller_name)
    ((parseIntJS form.jersey_number).getD 0) (trimJS form.email)
    (trimJS form.whatsapp_phone))

/-- A submission with a blank first name and a non-numeric jersey
number: the names check fires before the jersey check. -/
def blankNameBadJerseyForm : SignupForm where
  first_name := ""
  surname := "Doe"
  baller_name := "Flash"
  jersey_number := "abc"
  email := "doe@eko.test"
  whatsapp_phone := "+2348000000000"

/-- Counterexample to C8 as stated: this submission's jersey-number field
does not parse to an integer between 1 and 100, yet the handler displays
the required-names message, not the jersey message, because the names
check runs first. -/
theorem signup_jersey_message_not_shown_when_names_blank :
    jerseyInvalid blankNameBadJerseyForm.jersey_number = true ∧
    handleSubmit blankNameBadJerseyForm =
      .showValidationMessage .namesRequired ∧
    SignupError.namesRequired ≠ SignupError.jerseyRange := by
  refine ⟨by decide, by decide, by decide⟩

/-- C8 (amended): for every submission that passes the required-names
check, an invalid jersey-number field (failing to parse to an integer
between 1 and 100) makes the handler display the jersey-range message
and return before the signup request is issued, so no request is sent
and no external state is mutated. -/
theorem signup_jersey_validation_blocks_request (form : SignupForm)
    (h1 : blank form.first_name = false) (h2 : blank form.surname = false)
    (h3 : blank form.baller_name = false)
    (h4 : jerseyInvalid form.jersey_number = true) :
    handleSubmit form = .showValidationMessage .jerseyRange := by
  unfold handleSubmit
  rw [h1, h2, h3, h4]
  simp

/-- A submission with all names filled but a non-numeric jersey field. -/
def badJerseyForm : SignupForm where
  first_name := "John"
  surname := "Doe"
  baller_name := "Flash"
  jersey_number := "abc"
  email := "doe@eko.test"
  whatsapp_phone := "+2348000000000"

/-- Witness for C8 (amended) at a concrete submission. -/
theorem signup_jersey_validation_witness :
    handleSubmit badJerseyForm = .showValidationMessage .jerseyRange := by
  exact signup_jersey_validation_blocks_request badJerseyForm
    (by decide) (by decide) (by decide) (by decide)

/-- What the `StarDisplay` component of Leaderboard.jsx renders: the
plain text '0', or `filled` solid star glyphs followed by `hollow` open
star glyphs. -/
inductive StarView where
  | zeroText
  | stars (filled hollow : Nat)
deriving DecidableEq, Repr

/-- Leaderboard.jsx lines 7-14 `StarDisplay`: for a null count or a count
below 1 render the text '0'; otherwise render
`'★'.repeat(Math.min(5, count))` and `'☆'.repeat(5 - Math.min(5, count))`.
`none` models a null `star_rating`. -/
def StarDisplay (count : Option Int) : StarView :=
  match count with
  | none => .zeroText
  | some n =>
    if n < 1 then .zeroText
    else .stars (min 5 n).toNat (5 - (min 5 n).toNat)

/-- What the member sidebar's star banner (src/unnamed/part_001 lines
63-75) renders: the star-player banner with its glyph counts, or the
unrated message "0 stars — play a matchday to get rated". -/
inductive SidebarBanner where
  | starPlayer (filled hollow : Nat)
  | unratedMessage
deriving DecidableEq, Repr

/-- part_001 lines 64-75: `typeof starRating === 'number' && starRating
>= 1` selects the star banner with the same min-5 clamped glyph counts;
anything else (null or a value below 1) shows the unrated message. -/
def sidebarStarBanner (starRating : Option Int) : SidebarBanner :=
  match starRating with
  | some n =>
    if 1 ≤ n then .starPlayer (min 5 n).toNat (5 - (min 5 n).toNat)
    else .unratedMessage
  | none => .unratedMessage

/-- C10: a null star rating or one below 1 renders the text '0' and the
sidebar's unrated message; every integer rating n ≥ 1 renders
min(5, n) filled stars followed by 5 - min(5, n) hollow stars — exactly
five glyphs in total — and every rating of 5 or more is clamped to five
filled stars. -/
theorem star_display_clamps_to_five (n : Option Int) :
    ((n = none ∨ ∃ m, n = some m ∧ m < 1) →
      StarDisplay n = .zeroText ∧ sidebarStarBanner n = .unratedMessage) ∧
    (∀ m : Int, n = some m → 1 ≤ m →
      StarDisplay n = .stars (min 5 m).toNat (5 - (min 5 m).toNat) ∧
      sidebarStarBanner n = .starPlayer (min 5 m).toNat (5 - (min 5 m).toNat) ∧
      (min 5 m).toNat + (5 - (min 5 m).toNat) = 5 ∧
      ((5 : Int) ≤ m → (min 5 m).toNat = 5)) := by
  constructor
  · rintro (rfl | ⟨m, rfl, hm⟩)
    · exact ⟨rfl, rfl⟩
    · constructor
      · simp [StarDisplay, hm]
      · simp [sidebarStarBanner, Int.not_le.mpr hm]
  · rintro m rfl h1
    have hmin : min 5 m ≤ 5 := min_le_left 5 m
    have hnn : (0 : Int) ≤ min 5 m := le_min (by norm_num) (le_trans (by norm_num) h1)
    have htoNat : (min 5 m).toNat ≤ 5 := by
      omega
    refine ⟨?_, ?_, ?_, ?_⟩
    · simp [StarDisplay, Int.not_lt.mpr h1]
    · simp [sidebarStarBanner, h1]
    · omega
    · intro h5
      have : min 5 m = 5 := min_eq_left h5
      rw [this]
      rfl

/-- Witness for C10: a star rating of 7 renders five filled and zero
hollow stars; a rating of 0 renders the '0' text and unrated banner. -/
theorem star_display_witness :
    StarDisplay (some 7) = .stars 5 0 ∧
    sidebarStarBanner (some 7) = .starPlayer 5 0 ∧
    StarDisplay (some 0) = .zeroText ∧
    sidebarStarBanner (some 0) = .unratedMessage := by
  have h7 := (star_display_clamps_to_five (some 7)).2 7 rfl (by decide)
  have h0 := (star_display_clamps_to_five (some 0)).1 (Or.inr ⟨0, rfl, by decide⟩)
  refine ⟨?_, ?_, h0.1, h0.2⟩
  · rw [h7.1]
    decide
  · rw [h7.2.1]
    decide

/-- Fixture lifecycle status (spec section 3 and the status strings of
part_003's fixtures panel). -/
inductive FixtureStatus where
  | pending
  | in_progress
  | completed
deriving DecidableEq, Repr

/-- Modelled from the spec: the backend fixture record (group indices,
derived goal tallies, status) — the fixture store itself is not part of
the repository sources. -/
structure Fixture where
  group_a_index : Nat
  group_b_index : Nat
  home_goals : Nat
  away_goals : Nat
  status : FixtureStatus
deriving DecidableEq, Repr

/-- Modelled from the spec (glossary: "Clean sheet: a fixture in which a
group's opponent scored zero goals"): group `g` keeps a clean sheet in
fixture `f` when it plays in `f` and concedes zero. -/
def keepsCleanSheet (g : Nat) (f : Fixture) : Bool :=
  (f.group_a_index == g && f.away_goals == 0) ||
    (f.group_b_index == g && f.home_goals == 0)

/-- Modelled from the spec (section 4.5 and RULES_QA.md answers 1 and 2):
the number of completed fixtures of the matchday in which group `g`
conceded zero goals. -/
def cleanSheetFixtureCount (g : Nat) (fixtures : List Fixture) : Nat :=
  (fixtures.filter (fun f => f.status == .completed && keepsCleanSheet g f)).length

/-- Modelled from the spec: the clean-sheet term of a member's matchday
rating — +1 per completed clean-sheet fixture of the member's group,
and only for present members. -/
def cleanSheetPoints (present : Bool) (g : Nat) (fixtures : List Fixture) : Int :=
  if present then (cleanSheetFixtureCount g fixtures : Int) else 0

/-- C2: the clean-sheet bonus is additive per completed fixture, not per
matchday — completing one more fixture in which the group concedes zero
adds exactly +1 to every present member's clean-sheet points (so two
clean-sheet fixtures in one matchday yield +2), a fixture that is not
completed adds nothing, and the member-facing rules table carries the
per-fixture +1 clean-sheet entry. -/
theorem clean_sheet_bonus_per_completed_fixture (g : Nat)
    (fixtures : List Fixture) (f : Fixture) :
    (f.status = .completed → keepsCleanSheet g f = true →
      cleanSheetPoints true g (fixtures ++ [f]) =
        cleanSheetPoints true g fixtures + 1) ∧
    (f.status ≠ .completed →
      cleanSheetPoints true g (fixtures ++ [f]) =
        cleanSheetPoints true g fixtures) ∧
    RatingRule.mk 1 .cleanSheetFixture ∈ RATING_RULES := by
  refine ⟨?_, ?_, by decide⟩
  · intro hst hcs
    unfold cleanSheetPoints cleanSheetFixtureCount
    rw [List.filter_append]
    have : List.filter (fun f => f.status == FixtureStatus.completed &&
        keepsCleanSheet g f) [f] = [f] := by
      simp [List.filter, hst, hcs]
    rw [this, List.length_append]
    simp
  · intro hst
    unfold cleanSheetPoints cleanSheetFixtureCount
    rw [List.filter_append]
    have : List.filter (fun f => f.status == FixtureStatus.completed &&
        keepsCleanSheet g f) [f] = [] := by
      have : (f.status == FixtureStatus.completed) = false := by
        simp [hst]
      simp [List.filter, this]
    rw [this, List.length_append]
    simp

/-- A completed fixture of group 1 against group 2 in which group 1
concedes nothing. -/
def cleanFixtureA : Fixture := Fixture.mk 1 2 3 0 .completed

/-- A second completed fixture of group 1, against group 3, again with
zero conceded. -/
def cleanFixtureB : Fixture := Fixture.mk 3 1 0 2 .completed

/-- Witness for C2 at a concrete two-fixture matchday: after one
clean-sheet fixture the present members of group 1 hold +1, and the
second completed clean-sheet fixture raises it to +2 (not +1 per
matchday). -/
theorem clean_sheet_bonus_witness :
    cleanSheetPoints true 1 [cleanFixtureA] = 1 ∧
    cleanSheetPoints true 1 [cleanFixtureA, cleanFixtureB] =
      cleanSheetPoints true 1 [cleanFixtureA] + 1 := by
  refine ⟨by decide, ?_⟩
  exact (clean_sheet_bonus_per_completed_fixture 1 [cleanFixtureA]
    cleanFixtureB).1 rfl (by decide)

/-- One row of the admin attendance summary (part_003): `player_id` and
`baller_name` as returned by the attendance/summary endpoint. -/
structure AttEntry where
  player_id : Nat
  baller_name : String
deriving DecidableEq, Repr

/-- The admin attendance summary state: the present list and the absent
list. -/
structure AttSummary where
  present : List AttEntry
  absent : List AttEntry
deriving DecidableEq, Repr

/-- part_003 lines 1205-1213: the optimistic update applied to the
attendance summary after a successful bulk toggle of the player with id
`pid` and name `name`.  When the player was absent (`wasPresent` false)
they are appended to the present list and filtered out of the absent
list; when they were present, the other way round. -/
def toggleOptimistic (prev : AttSummary) (pid : Nat) (name : String)
    (wasPresent : Bool) : AttSummary :=
  if !wasPresent then
    AttSummary.mk (prev.present ++ [AttEntry.mk pid name])
      (prev.absent.filter (fun x => !(x.player_id == pid)))
  else
    AttSummary.mk (prev.present.filter (fun x => !(x.player_id == pid)))
      (prev.absent ++ [AttEntry.mk pid name])

/-- The entries of a summary list belonging to the player with id `pid`,
in order. -/
def entriesOf (l : List AttEntry) (pid : Nat) : List AttEntry :=
  l.filter (fun x => x.player_id == pid)

theorem entriesOf_append (l1 l2 : List AttEntry) (pid : Nat) :
    entriesOf (l1 ++ l2) pid = entriesOf l1 pid ++ entriesOf l2 pid := by
  unfold entriesOf
  exact List.filter_append l1 l2

theorem entriesOf_eraseId_self (l : List AttEntry) (pid : Nat) :
    entriesOf (l.filter (fun x => !(x.player_id == pid))) pid = [] := by
  unfold entriesOf
  rw [List.filter_filter]
  apply List.filter_eq_nil_iff.mpr
  intro x _
  cases hx : x.player_id == pid <;> simp [hx]

theorem entriesOf_eraseId_other (l : List AttEntry) (pid q : Nat)
    (hq : q ≠ pid) :
    entriesOf (l.filter (fun x => !(x.player_id == pid))) q = entriesOf l q := by
  unfold entriesOf
  rw [List.filter_filter]
  apply List.filter_congr
  intro x _
  cases hx : x.player_id == q with
  | false => simp [hx]
  | true =>
    have hxq : x.player_id = q := beq_iff_eq.mp hx
    have hnp : (x.player_id == pid) = false := by
      rw [hxq]
      exact beq_eq_false_iff_ne.mpr hq
    simp [hx, hnp]

theorem entriesOf_empty_of_not_mem (l : List AttEntry) (pid : Nat)
    (h : ∀ x ∈ l, x.player_id ≠ pid) : entriesOf l pid = [] := by
  unfold entriesOf
  apply List.filter_eq_nil_iff.mpr
  intro x hx
  simp [h x hx]

/-- C9: after a successful optimistic attendance toggle of a player who
was recorded in exactly one of the two summary lists, the updated
summary contains that player's entry in exactly the opposite list (one
entry there, none in the source list), and the entries of every other
player in both lists are unchanged. -/
theorem attendance_toggle_moves_exactly_one (prev : AttSummary) (pid : Nat)
    (name : String) (wasPresent : Bool)
    (hdst : ∀ x ∈ (if wasPresent then prev.absent else prev.present),
      x.player_id ≠ pid) :
    (wasPresent = true →
      entriesOf (toggleOptimistic prev pid name wasPresent).absent pid =
        [AttEntry.mk pid name] ∧
      entriesOf (toggleOptimistic prev pid name wasPresent).present pid = []) ∧
    (wasPresent = false →
      entriesOf (toggleOptimistic prev pid name wasPresent).present pid =
        [AttEntry.mk pid name] ∧
      entriesOf (toggleOptimistic prev pid name wasPresent).absent pid = []) ∧
    (∀ q, q ≠ pid →
      entriesOf (toggleOptimistic prev pid name wasPresent).present q =
        entriesOf prev.present q ∧
      entriesOf (toggleOptimistic prev pid name wasPresent).absent q =
        entriesOf prev.absent q) := by
  cases wasPresent with
  | true =>
    simp only [if_pos rfl] at hdst
    refine ⟨?_, ?_, ?_⟩
    · intro _
      constructor
      · unfold toggleOptimistic
        simp only [Bool.not_true, Bool.false_eq_true, if_false]
        rw [entriesOf_append, entriesOf_empty_of_not_mem prev.absent pid hdst]
        simp [entriesOf, List.filter]
      · unfold toggleOptimistic
        simp only [Bool.not_true, Bool.false_eq_true, if_false]
        exact entriesOf_eraseId_self prev.present pid
    · intro h
      exact absurd h (by simp)
    · intro q hq
      unfold toggleOptimistic
      simp only [Bool.not_true, Bool.false_eq_true, if_false]
      constructor
      · exact entriesOf_eraseId_other prev.present pid q hq
      · rw [entriesOf_append]
        have : entriesOf [AttEntry.mk pid name] q = [] := by
          apply entriesOf_empty_of_not_mem
          intro x hx
          rcases List.mem_singleton.mp hx with rfl
          exact fun hc => hq hc.symm
        rw [this, List.append_nil]
  | false =>
    simp only [Bool.false_eq_true, if_false] at hdst
    refine ⟨?_, ?_, ?_⟩
    · intro h
      exact absurd h (by simp)
    · intro _
      constructor
      · unfold toggleOptimistic
        simp only [Bool.not_false, if_true]
        rw [entriesOf_append, entriesOf_empty_of_not_mem prev.present pid hdst]
        simp [entriesOf, List.filter]
      · unfold toggleOptimistic
        simp only [Bool.not_false, if_true]
        exact entriesOf_eraseId_self prev.absent pid
    · intro q hq
      unfold toggleOptimistic
      simp only [Bool.not_false, if_true]
      constructor
      · rw [entriesOf_append]
        have : entriesOf [AttEntry.mk pid name] q = [] := by
          apply entriesOf_empty_of_not_mem
          intro x hx
          rcases List.mem_singleton.mp hx with rfl
          exact fun hc => hq hc.symm
        rw [this, List.append_nil]
      · exact entriesOf_eraseId_other prev.absent pid q hq

/-- The attendance summary before the witness toggle: player 1 present,
players 2 and 3 absent. -/
def attBefore : AttSummary :=
  AttSummary.mk [AttEntry.mk 1 (String.mk ['a', 'd', 'e'])]
    [AttEntry.mk 2 (String.mk ['b', 'o', 'l', 'a']),
     AttEntry.mk 3 (String.mk ['c', 'h', 'i'])]

/-- Witness for C9 at concrete data: toggling absent player 2 to present
puts exactly one entry for player 2 in the present list, none in the
absent list, and leaves the entries of players 1 and 3 unchanged. -/
theorem attendance_toggle_witness :
    entriesOf (toggleOptimistic attBefore 2 (String.mk ['b', 'o', 'l', 'a'])
      false).present 2 = [AttEntry.mk 2 (String.mk ['b', 'o', 'l', 'a'])] ∧
    entriesOf (toggleOptimistic attBefore 2 (String.mk ['b', 'o', 'l', 'a'])
      false).absent 2 = [] ∧
    entriesOf (toggleOptimistic attBefore 2 (String.mk ['b', 'o', 'l', 'a'])
      false).present 1 = entriesOf attBefore.present 1 ∧
    entriesOf (toggleOptimistic attBefore 2 (String.mk ['b', 'o', 'l', 'a'])
      false).absent 3 = entriesOf attBefore.absent 3 := by
  have h := attendance_toggle_moves_exactly_one attBefore 2
    (String.mk ['b', 'o', 'l', 'a']) false (by decide)
  have hmove := h.2.1 rfl
  have h1 := h.2.2 1 (by decide)
  have h3 := h.2.2 3 (by decide)
  exact ⟨hmove.1, hmove.2, h1.1, h3.2⟩

end Eko
